import Mathlib

/-!
Shallow embedding of the oracle-data-guard repository
(src/setup_dataguard.py and src/setup_oracle.py) and proofs about the
claims of its specification.

The scripts are straight-line orchestration code: every function either
derives names from identifiers, builds remote command payloads, or runs a
fixed sequence of remote operations.  We embed:

  * the name-derivation logic of both entry points (string functions),
  * the credential-file synchronization stages as traces of file
    operations together with a small file-system semantics,
  * the redo-log repair PL/SQL blocks as a transition function on a
    database state of online and standby log groups,
  * the redo-log path classifier (the SQL invalid-path condition),
  * the instance-readiness polling loop of setup_oracle.py, and
  * the validation-before-mutation control flow of both main functions.

Strings from the source are embedded as Lean String or List Char values;
shell metadata steps (chmod, chown) that accompany a copy or move are
folded into that copy or move, since no claim observes permission bits.
-/

namespace OracleDataGuard

/-! ## Name derivation (setup_dataguard.py main, setup_oracle.py) -/

/-- Embedding of the Python expression s.split("-") on character lists:
splits at every dash, keeping empty components, as Python does. -/
def splitDash : List Char → List (List Char)
  | [] => [[]]
  | c :: rest =>
    if c = '-' then [] :: splitDash rest
    else
      match splitDash rest with
      | [] => [[c]]
      | p :: ps => (c :: p) :: ps

/-- Derived names computed by setup_dataguard.py main (lines 950 to 961):
db_name, primary_db_unique_name, standby_db_unique_name,
primary_diskgroup, standby_diskgroup. -/
structure DgNames where
  dbName : List Char
  primaryUnique : List Char
  standbyUnique : List Char
  primaryDiskgroup : List Char
  standbyDiskgroup : List Char
deriving DecidableEq, Repr

/-- Embedding of the name derivation in setup_dataguard.py main:
primary_num = args.primary.split("-")[1], standby_num likewise (an
out-of-range index is an uncaught IndexError, modelled as none), then
db_name = "ORA"+primary_num (shared), primary unique = db_name,
standby unique = db_name + "_STBY", diskgroups from each side suffix. -/
def dataguardDeriveNames (primary standby : List Char) : Option DgNames :=
  match (splitDash primary)[1]? with
  | none => none
  | some primaryNum =>
    match (splitDash standby)[1]? with
    | none => none
    | some standbyNum =>
      some
        { dbName := "ORA".toList ++ primaryNum
          primaryUnique := "ORA".toList ++ primaryNum
          standbyUnique := "ORA".toList ++ primaryNum ++ "_STBY".toList
          primaryDiskgroup := "DGORA".toList ++ primaryNum
          standbyDiskgroup := "DGORA".toList ++ standbyNum }

/-- Error taxonomy of the specification for configuration-time failures.
The source raises ValueError (bad instance name) or calls sys.exit(1)
(missing project or zone); the spec folds these into ConfigurationError. -/
inductive ConfigError where
  | badInstanceName
  | missingProject
  | missingZone
deriving DecidableEq, Repr

/-- Embedding of setup_oracle.py parse_instance_number (lines 73 to 78):
re.match matches an anchored "ora-" followed by one or more digits
(greedily) and returns the digit group; anything else raises ValueError. -/
def parseInstanceNumber (s : List Char) : Except ConfigError (List Char) :=
  match s with
  | 'o' :: 'r' :: 'a' :: '-' :: rest =>
    let digits := rest.takeWhile Char.isDigit
    if digits = [] then .error .badInstanceName else .ok digits
  | _ => .error .badInstanceName

/-- Embedding of the Python idiom (args.x or get_gcloud_config key):
an absent or empty argument falls back to the gcloud config value. -/
def effectiveValue (arg : Option (List Char)) (cfg : List Char) : List Char :=
  match arg with
  | none => cfg
  | some v => if v = [] then cfg else v

/-- Gcloud config reads performed while resolving project and zone: the
Python or-expression only queries gcloud when the argument is falsy. -/
def configReadKeys (argProject argZone : Option (List Char)) : List (List Char) :=
  (match argProject with
   | none => ["project".toList]
   | some v => if v = [] then ["project".toList] else []) ++
  (match argZone with
   | none => ["compute/zone".toList]
   | some v => if v = [] then ["compute/zone".toList] else [])

/-! ## Control flow of setup_oracle.py main: validation before mutation -/

/-- Steps of a setup_oracle.py run, in main order.  readGcloudConfig,
waitForInstanceStep (probe runs the command true) and validateStep are
read-only; every other step mutates remote state. -/
inductive GcpStep where
  | readGcloudConfig (key : List Char)
  | deleteInstanceStep
  | createInstanceStep
  | waitForInstanceStep
  | configureKernelStep
  | setupPrereqStep
  | createConfigFilesStep
  | installOracleStep
  | configureSgaStep
  | configureAsmfdStep
  | configureDiskstringStep
  | validateStep
deriving DecidableEq, Repr

/-- Classification of setup_oracle.py steps: which ones mutate remote
state (create, delete, install, configure) as opposed to read-only
queries and probes. -/
def GcpStep.isRemoteMutationStep : GcpStep → Bool
  | .readGcloudConfig _ => false
  | .waitForInstanceStep => false
  | .validateStep => false
  | _ => true

/-- Embedding of setup_oracle.py main (lines 467 to 598): the result of
the run (error means sys.exit before any stage) paired with the list of
steps executed up to that point; on success the full step list honours
the delete mode and the skip flags, in source order. -/
def setupOracleMain (instanceName : List Char) (argProject argZone : Option (List Char))
    (cfgProject cfgZone : List Char)
    (deleteMode skipCreate skipKernel skipInstall skipAsmfd : Bool) :
    Except ConfigError Unit × List GcpStep :=
  match parseInstanceNumber instanceName with
  | .error e => (.error e, [])
  | .ok _num =>
    let reads := (configReadKeys argProject argZone).map GcpStep.readGcloudConfig
    let project := effectiveValue argProject cfgProject
    let zone := effectiveValue argZone cfgZone
    if project = [] then (.error .missingProject, reads)
    else if zone = [] then (.error .missingZone, reads)
    else if deleteMode then (.ok (), reads ++ [GcpStep.deleteInstanceStep])
    else
      (.ok (), reads
        ++ (if skipCreate then []
            else [GcpStep.createInstanceStep, GcpStep.waitForInstanceStep])
        ++ (if skipKernel then []
            else [GcpStep.configureKernelStep, GcpStep.waitForInstanceStep])
        ++ (if skipInstall then []
            else [GcpStep.setupPrereqStep, GcpStep.createConfigFilesStep,
                  GcpStep.installOracleStep, GcpStep.configureSgaStep])
        ++ (if skipAsmfd then []
            else [GcpStep.configureAsmfdStep, GcpStep.configureDiskstringStep])
        ++ [GcpStep.validateStep])

/-! ## Control flow of setup_dataguard.py main -/

/-- Failure modes of the setup_dataguard.py main prologue: sys.exit on a
missing project or zone, or an uncaught IndexError when an instance name
has no dash-separated second component.  Note there is no naming-pattern
validation in this script. -/
inductive DgResolveError where
  | missingProject
  | missingZone
  | indexError
deriving DecidableEq, Repr

/-- Steps of a setup_dataguard.py run: gcloud config reads and instance
IP lookups are read-only; every named stage mutates remote state (the
final validate stage only queries, but is kept as a stage). -/
inductive DgStep where
  | readGcloudConfig (key : List Char)
  | getInstanceIp (inst : List Char)
  | stage (name : List Char)
deriving DecidableEq, Repr

/-- Classification of setup_dataguard.py steps: only the named stages
can mutate remote state. -/
def DgStep.isRemoteMutationStep : DgStep → Bool
  | .stage _ => true
  | _ => false

/-- Stage list of setup_dataguard.py main (lines 971 to 1058) honouring
the two skip flags, in source order. -/
def dataguardStages (skipPrimaryConfig skipDuplication : Bool) : List DgStep :=
  (if skipPrimaryConfig then []
   else [DgStep.stage "configure_bash_profiles_primary".toList,
         DgStep.stage "configure_bash_profiles_standby".toList,
         DgStep.stage "configure_tns_entries_primary".toList,
         DgStep.stage "configure_tns_entries_standby".toList,
         DgStep.stage "configure_static_listener_primary".toList,
         DgStep.stage "configure_static_listener_standby".toList,
         DgStep.stage "configure_primary_for_dataguard".toList,
         DgStep.stage "setup_password_file".toList])
  ++ (if skipDuplication then []
      else [DgStep.stage "remove_standby_database".toList,
            DgStep.stage "create_standby_pfile".toList,
            DgStep.stage "start_standby_nomount".toList,
            DgStep.stage "duplicate_database".toList,
            DgStep.stage "sync_password_file_after_duplication".toList,
            DgStep.stage "fix_standby_redo_logs".toList,
            DgStep.stage "register_standby_with_cluster".toList])
  ++ [DgStep.stage "start_managed_recovery".toList,
      DgStep.stage "enable_log_shipping".toList,
      DgStep.stage "validate_dataguard".toList]

/-- Embedding of setup_dataguard.py main (lines 937 to 1058): project
and zone are resolved and checked first, then the names are derived by
dash splitting with no pattern validation, then the IP lookups and the
stages run.  The result is paired with the steps executed. -/
def dataguardMain (primary standby : List Char) (argProject argZone : Option (List Char))
    (cfgProject cfgZone : List Char) (skipPrimaryConfig skipDuplication : Bool) :
    Except DgResolveError DgNames × List DgStep :=
  let reads := (configReadKeys argProject argZone).map DgStep.readGcloudConfig
  let project := effectiveValue argProject cfgProject
  let zone := effectiveValue argZone cfgZone
  if project = [] then (.error .missingProject, reads)
  else if zone = [] then (.error .missingZone, reads)
  else
    match dataguardDeriveNames primary standby with
    | none => (.error .indexError, reads)
    | some n =>
      (.ok n, reads ++ [DgStep.getInstanceIp primary, DgStep.getInstanceIp standby]
        ++ dataguardStages skipPrimaryConfig skipDuplication)

/-! ## Redo-log path classifier (fix_standby_redo_logs, SQL condition) -/

/-- Meaning of the SQL pattern LIKE plus-percent-slash-percent used at
lines 681 and 721: the member starts with a plus sign and contains a
slash somewhere after it. -/
def likePlusAnySlashAny (member : List Char) : Bool :=
  decide (member.head? = some '+') && decide ('/' ∈ member.tail)

/-- Meaning of the SQL pattern LIKE applied to the literal
plus-diskgroup string at line 682: plain equality, faithful as long as
the diskgroup name contains no SQL wildcard characters (the derived
names DGORA followed by digits never do). -/
def likeBarePool (pool member : List Char) : Bool :=
  member = ('+' :: pool)

/-- Embedding of the invalid-path condition applied to non-current log
groups in fix_standby_redo_logs (lines 680 to 684): no slash after the
leading plus, or exactly the bare diskgroup token, or length below 10. -/
def invalidLogMember (pool member : List Char) : Bool :=
  !likePlusAnySlashAny member || likeBarePool pool member
    || decide (member.length < 10)

/-- Embedding of the invalid-path condition applied to the current log
group (lines 720 to 723), which omits the bare-pool disjunct. -/
def invalidCurrentLogMember (member : List Char) : Bool :=
  !likePlusAnySlashAny member || decide (member.length < 10)

/-- Classifier as the specification words it: the path lacks a slash
separator after the leading plus pool token, or equals the bare
plus-pool token, or is implausibly short. -/
def specInvalidLogMember (pool member : List Char) : Prop :=
  (¬ ∃ rest, member = '+' :: rest ∧ '/' ∈ rest)
    ∨ member = '+' :: pool ∨ member.length < 10

/-! ## Redo-log repair: standby log group recreation -/

/-- Database log state visible to the PL/SQL blocks of
fix_standby_redo_logs: the online groups (V$LOG rows as group number and
size in MB) and the standby groups (V$STANDBY_LOG rows likewise). -/
structure RedoState where
  online : List (Nat × Nat)
  standby : List (Nat × Nat)
deriving DecidableEq, Repr

/-- All group numbers in use; Oracle draws online and standby log group
numbers from the same namespace, so ADD fails on any collision. -/
def usedGroups (st : RedoState) : List Nat :=
  st.online.map Prod.fst ++ st.standby.map Prod.fst

/-- Effect of ALTER DATABASE DROP STANDBY LOGFILE GROUP g; the PL/SQL
loop swallows exceptions, so a missing group is a no-op. -/
def dropStandbyGroup (st : RedoState) (g : Nat) : RedoState :=
  { st with standby := st.standby.filter (fun e => e.1 ≠ g) }

/-- Effect of ALTER DATABASE ADD STANDBY LOGFILE GROUP g SIZE size; the
statement fails (exception swallowed, no-op) when the group number is
already in use. -/
def addStandbyGroup (st : RedoState) (g size : Nat) : RedoState :=
  if g ∈ usedGroups st then st
  else { st with standby := st.standby ++ [(g, size)] }

/-- MAX(GROUP#) FROM V$LOG, as a fold (0 for an empty list; the claims
only concern a nonempty V$LOG, where this matches SQL MAX). -/
def maxOnlineGroup (st : RedoState) : Nat :=
  (st.online.map Prod.fst).foldr max 0

/-- MAX(BYTES)/1024/1024 FROM V$LOG in MB, as a fold. -/
def maxOnlineSizeMB (st : RedoState) : Nat :=
  (st.online.map Prod.snd).foldr max 0

/-- The v_log_size computation of the third PL/SQL block (lines 749 to
755): the maximal online log size, defaulted to 100 when null or 0. -/
def vLogSize (st : RedoState) : Nat :=
  if maxOnlineSizeMB st = 0 then 100 else maxOnlineSizeMB st

/-- The drop loop of the third PL/SQL block (lines 760 to 768): iterate
over the V$STANDBY_LOG snapshot and drop every standby group. -/
def dropAllStandby (st : RedoState) : RedoState :=
  st.standby.foldl (fun s e => dropStandbyGroup s e.1) st

/-- Embedding of the third PL/SQL block of fix_standby_redo_logs (lines
743 to 781): count online groups, take the maximal group number and
size, drop all standby groups, then add online-count plus one standby
groups numbered from the maximal online group plus one. -/
def recreateStandbyGroups (st : RedoState) : RedoState :=
  let vOnlineCount := st.online.length
  let vMaxGroup := maxOnlineGroup st
  let size := vLogSize st
  let st1 := dropAllStandby st
  (List.range (vOnlineCount + 1)).foldl
    (fun s i => addStandbyGroup s (vMaxGroup + (i + 1)) size) st1

/-! ## Credential-file stages as traces of file operations -/

/-- The three machines involved: the primary instance, the standby
instance, and the local control host running the script. -/
inductive Host where
  | primary
  | standby
  | control
deriving DecidableEq, Repr

/-- File operations issued by setup_password_file and
sync_password_file_after_duplication.  Permission metadata commands
(chmod, chown) are folded into the copy or move they accompany.
scpCopy is the Transfer Surface (gcloud compute scp); captureOracleHome
and captureMd5 are read-only remote captures. -/
inductive FileOp where
  | createFile (h : Host) (path : String)
  | alterSysPassword (h : Host)
  | copyFile (h : Host) (src dst : String)
  | scpCopy (srcHost : Host) (src : String) (dstHost : Host) (dst : String)
  | moveFile (h : Host) (src dst : String)
  | removeFile (h : Host) (path : String)
  | captureOracleHome
  | captureMd5 (h : Host) (path : String)
  | restartDatabase (h : Host)
deriving DecidableEq, Repr

/-- Transfer operations: exactly the scp copies. -/
def FileOp.isTransferOp : FileOp → Bool
  | .scpCopy _ _ _ _ => true
  | _ => false

/-- Operations that mutate state on some host (everything except the
two read-only captures). -/
def FileOp.isMutationOp : FileOp → Bool
  | .captureOracleHome => false
  | .captureMd5 _ _ => false
  | _ => true

/-- Whether an operation writes (creates, overwrites or removes) the
file at the given host and path. -/
def FileOp.writesTo (op : FileOp) (h : Host) (p : String) : Bool :=
  match op with
  | .createFile h2 p2 => h2 = h ∧ p2 = p
  | .copyFile h2 _ d => h2 = h ∧ d = p
  | .scpCopy _ _ h2 d => h2 = h ∧ d = p
  | .moveFile h2 s d => h2 = h ∧ (s = p ∨ d = p)
  | .removeFile h2 p2 => h2 = h ∧ p2 = p
  | _ => false

/-- The orapw file name: "orapw" followed by the database name. -/
def orapwFileName (dbName : String) : String := "orapw" ++ dbName

/-- Path of the password file under ORACLE_HOME/dbs. -/
def orapwDbsPath (oracleHome dbName : String) : String :=
  oracleHome ++ "/dbs/" ++ orapwFileName dbName

/-- Path of the transient /tmp copy of the password file. -/
def orapwTmpPath (dbName : String) : String :=
  "/tmp/" ++ orapwFileName dbName

/-- Fixed staging path on the control host used by setup_password_file. -/
def stagingPath : String := "/tmp/orapw_dataguard"

/-- Error raised by sync_password_file_after_duplication when the
recomputed fingerprint still differs (RuntimeError in the source; the
spec calls it IntegrityError). -/
inductive SyncError where
  | integrityError
deriving DecidableEq, Repr

/-- Embedding of sync_password_file_after_duplication (lines 357 to
446).  The md5 values returned by the three remote captures are inputs
of the model (the environment decides them).  The result is the trace of
operations actually executed together with the raised error, if any:
capture ORACLE_HOME and both fingerprints; return at once when they
match; otherwise copy primary to /tmp, scp down then up, move into
place on the standby, clean the primary /tmp copy, recapture the standby
fingerprint; raise on a mismatch, otherwise restart the standby. -/
def syncPasswordFileAfterDuplication
    (dbName oracleHome primaryMd5 standbyMd5 newStandbyMd5 : String) :
    List FileOp × Option SyncError :=
  let p := orapwDbsPath oracleHome dbName
  let t := orapwTmpPath dbName
  let fingerprintOps : List FileOp :=
    [.captureOracleHome, .captureMd5 .primary p, .captureMd5 .standby p]
  if primaryMd5 = standbyMd5 then (fingerprintOps, none)
  else
    let copyOps : List FileOp :=
      [.copyFile .primary p t,
       .scpCopy .primary t .control t,
       .scpCopy .control t .standby t,
       .moveFile .standby t p,
       .removeFile .primary t,
       .captureMd5 .standby p]
    if primaryMd5 = newStandbyMd5 then
      (fingerprintOps ++ copyOps ++ [.restartDatabase .standby], none)
    else
      (fingerprintOps ++ copyOps, some .integrityError)

/-- Embedding of setup_password_file (lines 275 to 354) as its trace:
create the password file on the primary, set the SYS password, copy it
to /tmp, scp it down to the fixed staging path and up to the standby
/tmp, move it into place on the standby, remove the primary /tmp copy,
and restart the primary database. -/
def setupPasswordFileTrace (dbName oracleHome : String) : List FileOp :=
  let p := orapwDbsPath oracleHome dbName
  let t := orapwTmpPath dbName
  [.createFile .primary p,
   .alterSysPassword .primary,
   .copyFile .primary p t,
   .scpCopy .primary t .control stagingPath,
   .scpCopy .control stagingPath .standby t,
   .moveFile .standby t p,
   .removeFile .primary t,
   .restartDatabase .primary]

/-- File-system abstraction: the set of existing files, as a duplicate-
free list of host and path pairs. -/
abbrev FileState := List (Host × String)

/-- Add a file if absent. -/
def insertFile (fs : FileState) (x : Host × String) : FileState :=
  if x ∈ fs then fs else fs ++ [x]

/-- Remove a file if present (rm -f semantics). -/
def removeFilePath (fs : FileState) (x : Host × String) : FileState :=
  fs.filter (fun y => y ≠ x)

/-- Effect of one file operation on the file state: copies require the
source to exist, a move removes its source, database operations do not
touch the tracked files. -/
def applyFileOp (fs : FileState) : FileOp → FileState
  | .createFile h p => insertFile fs (h, p)
  | .copyFile h s d => if (h, s) ∈ fs then insertFile fs (h, d) else fs
  | .scpCopy hs s hd d => if (hs, s) ∈ fs then insertFile fs (hd, d) else fs
  | .moveFile h s d =>
    if (h, s) ∈ fs then insertFile (removeFilePath fs (h, s)) (h, d) else fs
  | .removeFile h p => removeFilePath fs (h, p)
  | _ => fs

/-- Run a trace of file operations from an initial file state. -/
def runFileOps (fs : FileState) (ops : List FileOp) : FileState :=
  ops.foldl applyFileOp fs

/-! ## Command strings of enable_log_shipping -/

/-- The LOG_ARCHIVE_CONFIG value interpolated by enable_log_shipping at
line 817: the primary side of DG_CONFIG is the literal ORA1, only the
standby unique name is a parameter. -/
def enableLogShippingDgConfig (standbyDbUniqueName : List Char) : List Char :=
  "DG_CONFIG=(ORA1,".toList ++ standbyDbUniqueName ++ ")".toList

/-- The DG_CONFIG value the rest of the workflow derives (lines 113 and
510): both unique names are parameters. -/
def derivedDgConfig (primaryDbUniqueName standbyDbUniqueName : List Char) : List Char :=
  "DG_CONFIG=(".toList ++ primaryDbUniqueName ++ ",".toList
    ++ standbyDbUniqueName ++ ")".toList

/-- The primary unique name derived by main from the numeric suffix:
ORA followed by primary_num (line 956). -/
def primaryUniqueNameOf (primaryNum : List Char) : List Char :=
  "ORA".toList ++ primaryNum

/-! ## The instance-readiness polling loop and subprocess calls -/

/-- Shape of a subprocess.run invocation made by run_cmd in both
scripts (lines 38 to 41 of each): argv, check, capture_output, and the
timeout keyword, which the source never passes. -/
structure SubprocessCall where
  argv : List String
  check : Bool
  captureOutput : Bool
  timeoutSeconds : Option Nat
deriving DecidableEq, Repr

/-- Embedding of run_cmd: builds the subprocess.run call; no timeout
keyword appears in the source, so timeoutSeconds is always none. -/
def runCmdCall (cmd : List String) (check capture : Bool) : SubprocessCall :=
  { argv := cmd, check := check, captureOutput := capture, timeoutSeconds := none }

/-- The fixed poll interval of wait_for_instance: time.sleep(10). -/
def pollIntervalSeconds : Nat := 10

/-- The default overall deadline of wait_for_instance: timeout=300. -/
def defaultWaitTimeoutSeconds : Nat := 300

/-- The error raised when the deadline elapses (TimeoutError). -/
inductive WaitError where
  | timeoutExpired
deriving DecidableEq, Repr

/-- Embedding of the wait_for_instance loop (lines 55 to 70) in
discrete time, abstracting the duration of the probe itself: while the
elapsed time is below the deadline, probe; return the elapsed time on
success, otherwise sleep the poll interval; raise TimeoutError when the
deadline elapses. -/
def waitFromElapsed (probe : Nat → Bool) (timeout elapsed : Nat) :
    Except WaitError Nat :=
  if _h : elapsed < timeout then
    if probe elapsed then .ok elapsed
    else waitFromElapsed probe timeout (elapsed + pollIntervalSeconds)
  else .error .timeoutExpired
termination_by timeout - elapsed
decreasing_by simp [pollIntervalSeconds]; omega

/-- Embedding of wait_for_instance: run the loop from elapsed time 0. -/
def waitForInstance (probe : Nat → Bool) (timeout : Nat) : Except WaitError Nat :=
  waitFromElapsed probe timeout 0

/-! ## Helper lemmas -/

theorem mem_le_foldr_max (x : Nat) (l : List Nat) (h : x ∈ l) : x ≤ l.foldr max 0 := by
  induction l with
  | nil => cases h
  | cons a t ih =>
    rcases List.mem_cons.mp h with h | h
    · subst h; exact Nat.le_max_left _ _
    · exact le_trans (ih h) (Nat.le_max_right _ _)

theorem dropFold_online (l : List (Nat × Nat)) (st : RedoState) :
    (l.foldl (fun s e => dropStandbyGroup s e.1) st).online = st.online := by
  induction l generalizing st with
  | nil => rfl
  | cons a t ih => simpa [dropStandbyGroup] using ih (dropStandbyGroup st a.1)

theorem dropFold_standby_nil (l : List (Nat × Nat)) (st : RedoState)
    (h : ∀ e ∈ st.standby, e.1 ∈ l.map Prod.fst) :
    (l.foldl (fun s e => dropStandbyGroup s e.1) st).standby = [] := by
  induction l generalizing st with
  | nil =>
    rcases List.eq_nil_or_concat st.standby with h0 | ⟨_, e, h0⟩
    · simpa using h0
    · exact absurd (h e (by simp [h0])) (by simp)
  | cons a t ih =>
    refine ih (dropStandbyGroup st a.1) ?_
    intro e he
    have hmem : e ∈ st.standby ∧ e.1 ≠ a.1 := by
      simpa [dropStandbyGroup] using he
    have hh := h e hmem.1
    rw [List.map_cons] at hh
    rcases List.mem_cons.mp hh with h1 | h1
    · exact absurd h1 hmem.2
    · exact h1

theorem dropAllStandby_spec (st : RedoState) :
    (dropAllStandby st).standby = [] ∧ (dropAllStandby st).online = st.online := by
  constructor
  · exact dropFold_standby_nil st.standby st
      (fun e he => List.mem_map_of_mem Prod.fst he)
  · exact dropFold_online st.standby st

theorem addFold_spec (k : Nat) (base size : Nat) (st : RedoState)
    (h : ∀ g ∈ usedGroups st, g ≤ base) :
    ((List.range k).foldl (fun s i => addStandbyGroup s (base + (i + 1)) size) st).standby
      = st.standby ++ (List.range k).map (fun i => (base + (i + 1), size)) ∧
    ((List.range k).foldl (fun s i => addStandbyGroup s (base + (i + 1)) size) st).online
      = st.online := by
  induction k with
  | zero => simp
  | succ k ih =>
    rw [List.range_succ, List.foldl_append]
    rcases ih with ⟨ihs, iho⟩
    have hnot : base + (k + 1) ∉
        usedGroups ((List.range k).foldl
          (fun s i => addStandbyGroup s (base + (i + 1)) size) st) := by
      intro hmem
      unfold usedGroups at hmem
      rcases List.mem_append.mp hmem with h1 | h1
      · rw [iho] at h1
        have := h _ (List.mem_append.mpr (Or.inl h1))
        omega
      · rw [ihs, List.map_append, List.map_map] at h1
        rcases List.mem_append.mp h1 with h2 | h2
        · have := h _ (List.mem_append.mpr (Or.inr h2))
          omega
        · rcases List.mem_map.mp h2 with ⟨i, hi, hval⟩
          have hik : i < k := List.mem_range.mp hi
          have hv : base + (i + 1) = base + (k + 1) := hval
          omega
    have hstep : ∀ (s : RedoState), base + (k + 1) ∉ usedGroups s →
        addStandbyGroup s (base + (k + 1)) size
          = { online := s.online, standby := s.standby ++ [(base + (k + 1), size)] } := by
      intro s hs
      unfold addStandbyGroup
      rw [if_neg hs]
    simp only [List.foldl_cons, List.foldl_nil]
    rw [hstep _ hnot]
    constructor
    · simp [ihs, List.append_assoc]
    · exact iho

theorem recreateStandbyGroups_standby (st : RedoState) :
    (recreateStandbyGroups st).standby
      = (List.range (st.online.length + 1)).map
          (fun i => (maxOnlineGroup st + (i + 1), vLogSize st)) := by
  unfold recreateStandbyGroups
  have hdrop := dropAllStandby_spec st
  have hused : ∀ g ∈ usedGroups (dropAllStandby st), g ≤ maxOnlineGroup st := by
    intro g hg
    unfold usedGroups at hg
    rw [hdrop.1, hdrop.2] at hg
    simp at hg
    rcases hg with ⟨b, hb⟩
    exact mem_le_foldr_max g _ (List.mem_map.mpr ⟨(g, b), hb, rfl⟩)
  have hadd := (addFold_spec (st.online.length + 1) (maxOnlineGroup st) (vLogSize st)
    (dropAllStandby st) hused).1
  rw [hadd, hdrop.1]
  simp

theorem waitFrom_timeout (probe : Nat → Bool) (timeout elapsed : Nat)
    (h : ∀ t, elapsed ≤ t → t < timeout → (t - elapsed) % pollIntervalSeconds = 0 →
      probe t = false) :
    waitFromElapsed probe timeout elapsed = .error .timeoutExpired := by
  rw [waitFromElapsed]
  by_cases hlt : elapsed < timeout
  · rw [dif_pos hlt, h elapsed le_rfl hlt (by simp)]
    simp only [Bool.false_eq_true, if_false]
    exact waitFrom_timeout probe timeout (elapsed + pollIntervalSeconds)
      (fun t ht1 ht2 ht3 => h t (by omega) ht2
        (by simp only [pollIntervalSeconds] at ht1 ht3 ⊢; omega))
  · rw [dif_neg hlt]
termination_by timeout - elapsed
decreasing_by simp only [pollIntervalSeconds]; omega

theorem waitFrom_ok_first (probe : Nat → Bool) (timeout elapsed t : Nat)
    (h : waitFromElapsed probe timeout elapsed = .ok t) :
    probe t = true ∧ elapsed ≤ t ∧ t < timeout ∧
      (t - elapsed) % pollIntervalSeconds = 0 ∧
      ∀ u, elapsed ≤ u → u < t → (u - elapsed) % pollIntervalSeconds = 0 →
        probe u = false := by
  rw [waitFromElapsed] at h
  by_cases hlt : elapsed < timeout
  · rw [dif_pos hlt] at h
    by_cases hp : probe elapsed = true
    · rw [if_pos hp] at h
      have ht : elapsed = t := by
        simpa using h
      subst ht
      exact ⟨hp, le_rfl, hlt, by simp, fun u hu1 hu2 _ => by omega⟩
    · rw [if_neg hp] at h
      have ih := waitFrom_ok_first probe timeout (elapsed + pollIntervalSeconds) t h
      have hple : elapsed + pollIntervalSeconds ≤ t := ih.2.1
      refine ⟨ih.1, by omega, ih.2.2.1, ?_, ?_⟩
      · have := ih.2.2.2.1
        simp only [pollIntervalSeconds] at this hple ⊢
        omega
      · intro u hu1 hu2 hu3
        by_cases hu0 : u = elapsed
        · subst hu0
          exact Bool.not_eq_true _ |>.mp hp
        · refine ih.2.2.2.2 u ?_ hu2 ?_
          · simp only [pollIntervalSeconds] at hu3 ⊢
            omega
          · have := ih.2.2.2.1
            simp only [pollIntervalSeconds] at hu3 ⊢
            omega
  · rw [dif_neg hlt] at h
    cases h
termination_by timeout - elapsed
decreasing_by simp only [pollIntervalSeconds]; omega

set_option maxHeartbeats 1000000 in
theorem passwordFileSetupFinalState (dbName oracleHome : String)
    (h1 : orapwDbsPath oracleHome dbName ≠ orapwTmpPath dbName)
    (h2 : orapwDbsPath oracleHome dbName ≠ stagingPath)
    (h3 : orapwTmpPath dbName ≠ stagingPath) :
    runFileOps [] (setupPasswordFileTrace dbName oracleHome)
      = [(Host.primary, orapwDbsPath oracleHome dbName),
         (Host.control, stagingPath),
         (Host.standby, orapwDbsPath oracleHome dbName)] := by
  have h1' := Ne.symm h1
  have h2' := Ne.symm h2
  have h3' := Ne.symm h3
  simp only [setupPasswordFileTrace, runFileOps, List.foldl_cons, List.foldl_nil]
  simp [applyFileOp, insertFile, removeFilePath, List.filter, h1, h1', h2, h2', h3, h3']

set_option maxHeartbeats 1000000 in
theorem passwordFileSyncFinalState (dbName oracleHome p s n : String)
    (hps : p ≠ s) (hpn : p = n)
    (h1 : orapwDbsPath oracleHome dbName ≠ orapwTmpPath dbName)
    (h2 : orapwDbsPath oracleHome dbName ≠ stagingPath)
    (h3 : orapwTmpPath dbName ≠ stagingPath) :
    runFileOps [(Host.primary, orapwDbsPath oracleHome dbName),
                (Host.control, stagingPath),
                (Host.standby, orapwDbsPath oracleHome dbName)]
        (syncPasswordFileAfterDuplication dbName oracleHome p s n).1
      = [(Host.primary, orapwDbsPath oracleHome dbName),
         (Host.control, stagingPath),
         (Host.standby, orapwDbsPath oracleHome dbName),
         (Host.control, orapwTmpPath dbName)] := by
  have h1' := Ne.symm h1
  have h2' := Ne.symm h2
  have h3' := Ne.symm h3
  have hsync : (syncPasswordFileAfterDuplication dbName oracleHome p s n).1
      = [FileOp.captureOracleHome,
         FileOp.captureMd5 Host.primary (orapwDbsPath oracleHome dbName),
         FileOp.captureMd5 Host.standby (orapwDbsPath oracleHome dbName),
         FileOp.copyFile Host.primary (orapwDbsPath oracleHome dbName) (orapwTmpPath dbName),
         FileOp.scpCopy Host.primary (orapwTmpPath dbName) Host.control (orapwTmpPath dbName),
         FileOp.scpCopy Host.control (orapwTmpPath dbName) Host.standby (orapwTmpPath dbName),
         FileOp.moveFile Host.standby (orapwTmpPath dbName) (orapwDbsPath oracleHome dbName),
         FileOp.removeFile Host.primary (orapwTmpPath dbName),
         FileOp.captureMd5 Host.standby (orapwDbsPath oracleHome dbName),
         FileOp.restartDatabase Host.standby] := by
    simp only [syncPasswordFileAfterDuplication]
    rw [if_neg hps, if_pos hpn]
    rfl
  rw [hsync]
  simp only [runFileOps, List.foldl_cons, List.foldl_nil]
  simp [applyFileOp, insertFile, removeFilePath, List.filter, h1, h1', h2, h2', h3, h3']

/-! ## Claims -/

/-- Claim C1: when the primary and standby credential-file fingerprints
are equal, the post-duplication credential-sync stage performs zero
transfer operations and no remote mutation of any kind; it returns with
no error immediately after the two fingerprint computations (which
follow the one read-only ORACLE_HOME capture). -/
theorem sync_password_file_equal_fingerprints_short_circuit
    (dbName oracleHome primaryMd5 standbyMd5 newStandbyMd5 : String)
    (h : primaryMd5 = standbyMd5) :
    syncPasswordFileAfterDuplication dbName oracleHome primaryMd5 standbyMd5 newStandbyMd5 =
      ([FileOp.captureOracleHome,
        FileOp.captureMd5 Host.primary (orapwDbsPath oracleHome dbName),
        FileOp.captureMd5 Host.standby (orapwDbsPath oracleHome dbName)], none) ∧
    ∀ op ∈ (syncPasswordFileAfterDuplication dbName oracleHome
        primaryMd5 standbyMd5 newStandbyMd5).1,
      op.isTransferOp = false ∧ op.isMutationOp = false := by
  have he : syncPasswordFileAfterDuplication dbName oracleHome
        primaryMd5 standbyMd5 newStandbyMd5
      = ([FileOp.captureOracleHome,
          FileOp.captureMd5 Host.primary (orapwDbsPath oracleHome dbName),
          FileOp.captureMd5 Host.standby (orapwDbsPath oracleHome dbName)], none) := by
    simp only [syncPasswordFileAfterDuplication]
    rw [if_pos h]
  refine ⟨he, ?_⟩
  rw [he]
  intro op hop
  simp only [List.mem_cons, List.not_mem_nil, or_false] at hop
  rcases hop with h1 | h1 | h1 <;> subst h1 <;> exact ⟨rfl, rfl⟩

/-- Witness for claim C1 at concrete inputs with equal fingerprints. -/
theorem sync_password_file_equal_fingerprints_short_circuit_witness :
    syncPasswordFileAfterDuplication "ORA1" "/u01/oh" "aaa" "aaa" "ccc" =
      ([FileOp.captureOracleHome,
        FileOp.captureMd5 Host.primary (orapwDbsPath "/u01/oh" "ORA1"),
        FileOp.captureMd5 Host.standby (orapwDbsPath "/u01/oh" "ORA1")], none) :=
  (sync_password_file_equal_fingerprints_short_circuit "ORA1" "/u01/oh" "aaa" "aaa" "ccc" rfl).1

/-- Claim C2: when the fingerprints differ, the sync stage completes
with no error only if the recomputed standby fingerprint equals the
primary one; on that success path the trace ends with the verifying
fingerprint capture followed by the standby restart, while on a
recomputed mismatch the stage raises the integrity error (RuntimeError
in the source, IntegrityError in the spec taxonomy) and performs no
restart. -/
theorem sync_password_file_differing_fingerprints_verify
    (dbName oracleHome primaryMd5 standbyMd5 newStandbyMd5 : String)
    (hps : primaryMd5 ≠ standbyMd5) :
    ((syncPasswordFileAfterDuplication dbName oracleHome
        primaryMd5 standbyMd5 newStandbyMd5).2 = none → primaryMd5 = newStandbyMd5) ∧
    (primaryMd5 = newStandbyMd5 →
      syncPasswordFileAfterDuplication dbName oracleHome primaryMd5 standbyMd5 newStandbyMd5 =
        ([FileOp.captureOracleHome,
          FileOp.captureMd5 Host.primary (orapwDbsPath oracleHome dbName),
          FileOp.captureMd5 Host.standby (orapwDbsPath oracleHome dbName),
          FileOp.copyFile Host.primary (orapwDbsPath oracleHome dbName) (orapwTmpPath dbName),
          FileOp.scpCopy Host.primary (orapwTmpPath dbName) Host.control (orapwTmpPath dbName),
          FileOp.scpCopy Host.control (orapwTmpPath dbName) Host.standby (orapwTmpPath dbName),
          FileOp.moveFile Host.standby (orapwTmpPath dbName) (orapwDbsPath oracleHome dbName),
          FileOp.removeFile Host.primary (orapwTmpPath dbName),
          FileOp.captureMd5 Host.standby (orapwDbsPath oracleHome dbName),
          FileOp.restartDatabase Host.standby], none)) ∧
    (primaryMd5 ≠ newStandbyMd5 →
      (syncPasswordFileAfterDuplication dbName oracleHome
          primaryMd5 standbyMd5 newStandbyMd5).2 = some SyncError.integrityError ∧
      FileOp.restartDatabase Host.standby ∉
        (syncPasswordFileAfterDuplication dbName oracleHome
          primaryMd5 standbyMd5 newStandbyMd5).1) := by
  by_cases hpn : primaryMd5 = newStandbyMd5
  · refine ⟨fun _ => hpn, fun _ => ?_, fun hc => absurd hpn hc⟩
    simp only [syncPasswordFileAfterDuplication]
    rw [if_neg hps, if_pos hpn]
    rfl
  · have he : syncPasswordFileAfterDuplication dbName oracleHome
          primaryMd5 standbyMd5 newStandbyMd5
        = ([FileOp.captureOracleHome,
            FileOp.captureMd5 Host.primary (orapwDbsPath oracleHome dbName),
            FileOp.captureMd5 Host.standby (orapwDbsPath oracleHome dbName),
            FileOp.copyFile Host.primary (orapwDbsPath oracleHome dbName) (orapwTmpPath dbName),
            FileOp.scpCopy Host.primary (orapwTmpPath dbName) Host.control (orapwTmpPath dbName),
            FileOp.scpCopy Host.control (orapwTmpPath dbName) Host.standby (orapwTmpPath dbName),
            FileOp.moveFile Host.standby (orapwTmpPath dbName) (orapwDbsPath oracleHome dbName),
            FileOp.removeFile Host.primary (orapwTmpPath dbName),
            FileOp.captureMd5 Host.standby (orapwDbsPath oracleHome dbName)],
           some SyncError.integrityError) := by
      simp only [syncPasswordFileAfterDuplication]
      rw [if_neg hps, if_neg hpn]
      rfl
    refine ⟨?_, fun hc => absurd hc hpn, fun _ => ?_⟩
    · rw [he]
      intro hcontra
      exact absurd hcontra (by simp)
    · rw [he]
      refine ⟨rfl, ?_⟩
      simp

/-- Witness for claim C2 at concrete inputs on the failed-verification
branch. -/
theorem sync_password_file_differing_fingerprints_verify_witness :
    (syncPasswordFileAfterDuplication "ORA1" "/u01/oh" "aaa" "bbb" "ccc").2
        = some SyncError.integrityError ∧
    FileOp.restartDatabase Host.standby ∉
      (syncPasswordFileAfterDuplication "ORA1" "/u01/oh" "aaa" "bbb" "ccc").1 :=
  (sync_password_file_differing_fingerprints_verify "ORA1" "/u01/oh" "aaa" "bbb" "ccc"
    (by decide)).2.2 (by decide)

/-- Claim C3: the invalid-path condition of the redo-log repair stage
flags a member exactly when it lacks a slash after the leading plus pool
token, or equals the bare plus-pool token, or has length below 10; the
current-log variant (which omits the bare-pool disjunct) agrees with it
whenever the pool name contains no slash; and on the four POOL1 sample
inputs exactly the last three are flagged. -/
theorem redo_log_path_classifier_spec :
    (∀ pool member, invalidLogMember pool member = true ↔ specInvalidLogMember pool member) ∧
    (∀ pool member, '/' ∉ pool →
      invalidCurrentLogMember member = invalidLogMember pool member) ∧
    invalidLogMember "POOL1".toList "+POOL1/subpath/file".toList = false ∧
    invalidLogMember "POOL1".toList "+POOL1".toList = true ∧
    invalidLogMember "POOL1".toList "+P".toList = true ∧
    invalidLogMember "POOL1".toList "nopoolprefix/x".toList = true := by
  refine ⟨?_, ?_, by decide, by decide, by decide, by decide⟩
  · intro pool member
    unfold invalidLogMember specInvalidLogMember likePlusAnySlashAny likeBarePool
    cases member with
    | nil => simp
    | cons c rest =>
      by_cases hc : c = '+'
      · subst hc
        simp [List.cons.injEq, or_assoc]
      · simp [hc, List.cons.injEq]
  · intro pool member h
    unfold invalidCurrentLogMember invalidLogMember likePlusAnySlashAny likeBarePool
    by_cases hbare : member = '+' :: pool
    · subst hbare
      simp [h]
    · simp [hbare]

/-- Witness for claim C3: the two classifier variants agree on a
concrete pool and member. -/
theorem redo_log_path_classifier_spec_witness :
    invalidCurrentLogMember "+POOL1".toList
      = invalidLogMember "POOL1".toList "+POOL1".toList :=
  redo_log_path_classifier_spec.2.1 "POOL1".toList "+POOL1".toList (by decide)

/-- Claim C4: for a standby with N online redo-log groups (N positive,
as on any mounted database), the repair stage always ends with exactly
N plus 1 standby-only log groups regardless of how many existed before,
every recreated group has the computed size, and that size equals the
largest observed online log size whenever the latter is positive. -/
theorem standby_log_group_count_invariant (st : RedoState) (_hne : st.online ≠ []) :
    (recreateStandbyGroups st).standby.length = st.online.length + 1 ∧
    (∀ e ∈ (recreateStandbyGroups st).standby, e.2 = vLogSize st) ∧
    (0 < maxOnlineSizeMB st → vLogSize st = maxOnlineSizeMB st) := by
  refine ⟨?_, ?_, ?_⟩
  · rw [recreateStandbyGroups_standby]
    simp
  · intro e he
    rw [recreateStandbyGroups_standby] at he
    rcases List.mem_map.mp he with ⟨i, _, hval⟩
    rw [← hval]
  · intro hpos
    unfold vLogSize
    rw [if_neg (by omega)]

/-- Witness for claim C4: three online groups with five pre-existing
standby groups end with exactly four standby groups. -/
theorem standby_log_group_count_invariant_witness :
    (recreateStandbyGroups
      { online := [(1, 200), (2, 200), (3, 200)],
        standby := [(7, 100), (8, 100), (9, 50), (10, 50), (11, 50)] }).standby.length
      = 3 + 1 :=
  (standby_log_group_count_invariant
    { online := [(1, 200), (2, 200), (3, 200)],
      standby := [(7, 100), (8, 100), (9, 50), (10, 50), (11, 50)] } (by decide)).1

/-- Counterexample to claim C5: with primary identifier role-1 and
standby identifier role-2 the code derives database name ORA1 (and pool
DGORA1), not ROLE1 (and not POOLROLE1): the ORA and DGORA prefixes are
hard-coded literals, independent of the identifier prefix. -/
theorem resolved_names_role_identifier_counterexample :
    dataguardDeriveNames "role-1".toList "role-2".toList
      = some { dbName := "ORA1".toList, primaryUnique := "ORA1".toList,
               standbyUnique := "ORA1_STBY".toList,
               primaryDiskgroup := "DGORA1".toList,
               standbyDiskgroup := "DGORA2".toList } ∧
    "ORA1".toList ≠ "ROLE1".toList ∧ "DGORA1".toList ≠ "POOLROLE1".toList := by
  decide

/-- Claim C5 as amended: resolving primary ora-1 and standby ora-2
yields shared database name ORA1, primary unique name ORA1, standby
unique name ORA1_STBY, primary pool DGORA1 and standby pool DGORA2; and
in general the database name is ORA plus the primary suffix, shared by
both roles, the primary unique name equals it, the standby unique name
appends _STBY, and each pool is DGORA plus that side own suffix. -/
theorem resolved_names_derivation :
    (dataguardDeriveNames "ora-1".toList "ora-2".toList
      = some { dbName := "ORA1".toList, primaryUnique := "ORA1".toList,
               standbyUnique := "ORA1_STBY".toList,
               primaryDiskgroup := "DGORA1".toList,
               standbyDiskgroup := "DGORA2".toList }) ∧
    ∀ p s pn sn nm, (splitDash p)[1]? = some pn → (splitDash s)[1]? = some sn →
      dataguardDeriveNames p s = some nm →
      nm.dbName = "ORA".toList ++ pn ∧
      nm.primaryUnique = nm.dbName ∧
      nm.standbyUnique = nm.dbName ++ "_STBY".toList ∧
      nm.primaryDiskgroup = "DGORA".toList ++ pn ∧
      nm.standbyDiskgroup = "DGORA".toList ++ sn := by
  refine ⟨by decide, ?_⟩
  intro p s pn sn nm hp hs hd
  unfold dataguardDeriveNames at hd
  rw [hp, hs] at hd
  simp only [Option.some.injEq] at hd
  subst hd
  refine ⟨rfl, rfl, by simp [List.append_assoc], rfl, rfl⟩

/-- Witness for claim C5 at the concrete pair ora-3, ora-4. -/
theorem resolved_names_derivation_witness :
    ({ dbName := "ORA3".toList, primaryUnique := "ORA3".toList,
       standbyUnique := "ORA3_STBY".toList,
       primaryDiskgroup := "DGORA3".toList,
       standbyDiskgroup := "DGORA4".toList } : DgNames).dbName
      = "ORA".toList ++ "3".toList :=
  (resolved_names_derivation.2 "ora-3".toList "ora-4".toList "3".toList "4".toList
    { dbName := "ORA3".toList, primaryUnique := "ORA3".toList,
      standbyUnique := "ORA3_STBY".toList,
      primaryDiskgroup := "DGORA3".toList,
      standbyDiskgroup := "DGORA4".toList }
    (by decide) (by decide) (by decide)).1

/-- Counterexample to claim C6: the identifier foo-bar does not match
the ora-number convention (setup_oracle.py rejects it), yet
setup_dataguard.py resolves it successfully with a valid project and
zone — it derives names ORAbar and so on and proceeds to
remote-mutating stages, raising no ConfigurationError at all. -/
theorem dataguard_accepts_nonconforming_identifier :
    parseInstanceNumber "foo-bar".toList = .error .badInstanceName ∧
    (dataguardMain "foo-bar".toList "ora-2".toList none none
        "proj".toList "zone".toList false false).1
      = .ok { dbName := "ORAbar".toList, primaryUnique := "ORAbar".toList,
              standbyUnique := "ORAbar_STBY".toList,
              primaryDiskgroup := "DGORAbar".toList,
              standbyDiskgroup := "DGORA2".toList } ∧
    ((dataguardMain "foo-bar".toList "ora-2".toList none none
        "proj".toList "zone".toList false false).2.any
      (fun st => st.isRemoteMutationStep)) = true := by
  refine ⟨rfl, rfl, rfl⟩

/-- Claim C6 as amended: in setup_oracle.py an identifier that does not
match the convention fails before any step at all, and a missing
project or zone fails after only read-only gcloud config queries; in
setup_dataguard.py a missing project or zone likewise fails before any
remote mutation, but identifiers are not validated there. -/
theorem configuration_errors_before_remote_mutation :
    (∀ instanceName argProject argZone cfgProject cfgZone dm s1 s2 s3 s4 e,
      parseInstanceNumber instanceName = .error e →
      setupOracleMain instanceName argProject argZone cfgProject cfgZone dm s1 s2 s3 s4
        = (.error e, [])) ∧
    (∀ instanceName argProject argZone cfgProject cfgZone dm s1 s2 s3 s4 num,
      parseInstanceNumber instanceName = .ok num →
      (effectiveValue argProject cfgProject = [] ∨ effectiveValue argZone cfgZone = []) →
      ∃ err, (setupOracleMain instanceName argProject argZone
            cfgProject cfgZone dm s1 s2 s3 s4).1 = .error err ∧
        ∀ st ∈ (setupOracleMain instanceName argProject argZone
            cfgProject cfgZone dm s1 s2 s3 s4).2,
          st.isRemoteMutationStep = false) ∧
    (∀ primary standby argProject argZone cfgProject cfgZone k1 k2,
      (effectiveValue argProject cfgProject = [] ∨ effectiveValue argZone cfgZone = []) →
      ∃ err, (dataguardMain primary standby argProject argZone
            cfgProject cfgZone k1 k2).1 = .error err ∧
        ∀ st ∈ (dataguardMain primary standby argProject argZone
            cfgProject cfgZone k1 k2).2,
          st.isRemoteMutationStep = false) := by
  refine ⟨?_, ?_, ?_⟩
  · intro instanceName argProject argZone cfgProject cfgZone dm s1 s2 s3 s4 e he
    simp only [setupOracleMain, he]
  · intro instanceName argProject argZone cfgProject cfgZone dm s1 s2 s3 s4 num hnum hor
    simp only [setupOracleMain, hnum]
    by_cases hproj : effectiveValue argProject cfgProject = []
    · refine ⟨.missingProject, by simp [hproj], ?_⟩
      simp only [if_pos hproj]
      intro st hst
      rcases List.mem_map.mp hst with ⟨k, _, hk⟩
      rw [← hk]
      rfl
    · have hzone : effectiveValue argZone cfgZone = [] := by
        rcases hor with h | h
        · exact absurd h hproj
        · exact h
      refine ⟨.missingZone, by simp [hproj, hzone], ?_⟩
      simp only [if_neg hproj, if_pos hzone]
      intro st hst
      rcases List.mem_map.mp hst with ⟨k, _, hk⟩
      rw [← hk]
      rfl
  · intro primary standby argProject argZone cfgProject cfgZone k1 k2 hor
    simp only [dataguardMain]
    by_cases hproj : effectiveValue argProject cfgProject = []
    · refine ⟨.missingProject, by simp [hproj], ?_⟩
      simp only [if_pos hproj]
      intro st hst
      rcases List.mem_map.mp hst with ⟨k, _, hk⟩
      rw [← hk]
      rfl
    · have hzone : effectiveValue argZone cfgZone = [] := by
        rcases hor with h | h
        · exact absurd h hproj
        · exact h
      refine ⟨.missingZone, by simp [hproj, hzone], ?_⟩
      simp only [if_neg hproj, if_pos hzone]
      intro st hst
      rcases List.mem_map.mp hst with ⟨k, _, hk⟩
      rw [← hk]
      rfl

/-- Witness for claim C6: a malformed identifier makes setup_oracle.py
exit with the bad-name error before executing any step. -/
theorem configuration_errors_before_remote_mutation_witness :
    setupOracleMain "foo".toList none none "p".toList "z".toList
        false false false false false
      = (.error ConfigError.badInstanceName, []) :=
  configuration_errors_before_remote_mutation.1 "foo".toList none none
    "p".toList "z".toList false false false false false
    ConfigError.badInstanceName rfl

/-- Claim C7: the LOG_ARCHIVE_CONFIG command built by
enable_log_shipping hard-codes ORA1 as the primary side of DG_CONFIG,
so it coincides with the DG_CONFIG the rest of the workflow derives
from the primary suffix exactly when that suffix is 1. -/
theorem enable_log_shipping_literal_ora1 (primaryNum standbyDbUniqueName : List Char) :
    enableLogShippingDgConfig standbyDbUniqueName
      = derivedDgConfig (primaryUniqueNameOf primaryNum) standbyDbUniqueName
    ↔ primaryNum = "1".toList := by
  have hsplit : "DG_CONFIG=(ORA1,".toList
      = "DG_CONFIG=(".toList ++ ("ORA".toList ++ ("1".toList ++ ",".toList)) := by decide
  constructor
  · intro h
    unfold enableLogShippingDgConfig derivedDgConfig primaryUniqueNameOf at h
    rw [hsplit] at h
    simp only [List.append_assoc] at h
    have h2 := List.append_cancel_left h
    have h3 := List.append_cancel_left h2
    exact (List.append_cancel_right h3).symm
  · intro h
    subst h
    unfold enableLogShippingDgConfig derivedDgConfig primaryUniqueNameOf
    rw [hsplit]
    simp [List.append_assoc]

/-- Witness for claim C7 at suffix 1, where the two configs agree. -/
theorem enable_log_shipping_literal_ora1_witness :
    enableLogShippingDgConfig "ORA1_STBY".toList
      = derivedDgConfig (primaryUniqueNameOf "1".toList) "ORA1_STBY".toList :=
  (enable_log_shipping_literal_ora1 "1".toList "ORA1_STBY".toList).mpr rfl

/-- Counterexample to claim C8: after setup_password_file and a
successful differing-fingerprint sync, the staging copies on the local
control host (the fixed orapw_dataguard path and the /tmp orapw copy)
still exist in the final file state — they are never deleted. -/
theorem control_host_staging_copies_persist :
    (Host.control, stagingPath) ∈
      runFileOps [] (setupPasswordFileTrace "ORA1" "/u01/oh"
        ++ (syncPasswordFileAfterDuplication "ORA1" "/u01/oh" "aaa" "bbb" "aaa").1) ∧
    (Host.control, orapwTmpPath "ORA1") ∈
      runFileOps [] (setupPasswordFileTrace "ORA1" "/u01/oh"
        ++ (syncPasswordFileAfterDuplication "ORA1" "/u01/oh" "aaa" "bbb" "aaa").1) := by
  decide

/-- Claim C8 as amended: after the credential-file setup stage and a
successful post-duplication sync, the /tmp copies on the primary and on
the standby have been deleted (the standby copy is consumed by the move
into the credential location), but the two staging copies on the local
control host remain — the cleanup commands only target the remote /tmp
copies. -/
theorem transient_copy_cleanup_extent
    (dbName oracleHome primaryMd5 standbyMd5 newStandbyMd5 : String)
    (hps : primaryMd5 ≠ standbyMd5) (hpn : primaryMd5 = newStandbyMd5)
    (h1 : orapwDbsPath oracleHome dbName ≠ orapwTmpPath dbName)
    (h2 : orapwDbsPath oracleHome dbName ≠ stagingPath)
    (h3 : orapwTmpPath dbName ≠ stagingPath) :
    (Host.primary, orapwTmpPath dbName) ∉
      runFileOps [] (setupPasswordFileTrace dbName oracleHome
        ++ (syncPasswordFileAfterDuplication dbName oracleHome
              primaryMd5 standbyMd5 newStandbyMd5).1) ∧
    (Host.standby, orapwTmpPath dbName) ∉
      runFileOps [] (setupPasswordFileTrace dbName oracleHome
        ++ (syncPasswordFileAfterDuplication dbName oracleHome
              primaryMd5 standbyMd5 newStandbyMd5).1) ∧
    (Host.control, stagingPath) ∈
      runFileOps [] (setupPasswordFileTrace dbName oracleHome
        ++ (syncPasswordFileAfterDuplication dbName oracleHome
              primaryMd5 standbyMd5 newStandbyMd5).1) ∧
    (Host.control, orapwTmpPath dbName) ∈
      runFileOps [] (setupPasswordFileTrace dbName oracleHome
        ++ (syncPasswordFileAfterDuplication dbName oracleHome
              primaryMd5 standbyMd5 newStandbyMd5).1) := by
  have h1' := Ne.symm h1
  have hfinal : runFileOps [] (setupPasswordFileTrace dbName oracleHome
        ++ (syncPasswordFileAfterDuplication dbName oracleHome
              primaryMd5 standbyMd5 newStandbyMd5).1)
      = [(Host.primary, orapwDbsPath oracleHome dbName),
         (Host.control, stagingPath),
         (Host.standby, orapwDbsPath oracleHome dbName),
         (Host.control, orapwTmpPath dbName)] := by
    rw [runFileOps, List.foldl_append, ← runFileOps, ← runFileOps,
      passwordFileSetupFinalState dbName oracleHome h1 h2 h3,
      passwordFileSyncFinalState dbName oracleHome primaryMd5 standbyMd5 newStandbyMd5
        hps hpn h1 h2 h3]
  rw [hfinal]
  refine ⟨by simp [h1'], by simp [h1'], by simp, by simp⟩

/-- Witness for claim C8 at concrete inputs on the success branch. -/
theorem transient_copy_cleanup_extent_witness :
    (Host.primary, orapwTmpPath "ORA1") ∉
      runFileOps [] (setupPasswordFileTrace "ORA1" "/u01/oh"
        ++ (syncPasswordFileAfterDuplication "ORA1" "/u01/oh" "aaa" "bbb" "aaa").1) :=
  (transient_copy_cleanup_extent "ORA1" "/u01/oh" "aaa" "bbb" "aaa"
    (by decide) (by decide) (by decide) (by decide) (by decide)).1

/-- Claim C9: run_cmd passes no timeout to any subprocess invocation;
the wait-for-instance step polls with the fixed 10 second interval
against the default 300 second deadline, returns at the first
successful probe, and raises TimeoutError when every probe within the
deadline fails. -/
theorem wait_for_instance_bounded_polling :
    pollIntervalSeconds = 10 ∧
    defaultWaitTimeoutSeconds = 300 ∧
    (∀ cmd chk cap, (runCmdCall cmd chk cap).timeoutSeconds = none) ∧
    (∀ probe t, waitForInstance probe defaultWaitTimeoutSeconds = .ok t →
      probe t = true ∧ t < defaultWaitTimeoutSeconds ∧ t % pollIntervalSeconds = 0 ∧
        ∀ u < t, u % pollIntervalSeconds = 0 → probe u = false) ∧
    (∀ probe, (∀ t < defaultWaitTimeoutSeconds, t % pollIntervalSeconds = 0 →
        probe t = false) →
      waitForInstance probe defaultWaitTimeoutSeconds = .error .timeoutExpired) := by
  refine ⟨rfl, rfl, fun _ _ _ => rfl, ?_, ?_⟩
  · intro probe t h
    have hh := waitFrom_ok_first probe defaultWaitTimeoutSeconds 0 t h
    refine ⟨hh.1, hh.2.2.1, by simpa using hh.2.2.2.1, ?_⟩
    intro u hu1 hu2
    exact hh.2.2.2.2 u (Nat.zero_le u) hu1 (by simpa using hu2)
  · intro probe h
    exact waitFrom_timeout probe defaultWaitTimeoutSeconds 0
      (fun t _ ht2 ht3 => h t ht2 (by simpa using ht3))

/-- Witness for claim C9: a probe that never succeeds makes
wait_for_instance raise the timeout error. -/
theorem wait_for_instance_bounded_polling_witness :
    waitForInstance (fun _ => false) defaultWaitTimeoutSeconds
      = .error .timeoutExpired :=
  wait_for_instance_bounded_polling.2.2.2.2 (fun _ => false) (fun _ _ _ => rfl)

/-- Claim C10: on the error path of the sync stage (fingerprints
differed and the recomputed standby fingerprint still mismatches), the
integrity error is raised only after the standby credential file was
already replaced by the transferred copy: the one and only write to
that file in the executed trace is the move of the transferred /tmp
copy into place, nothing restores the previous file, and no restart
runs. -/
theorem sync_error_path_credential_already_replaced
    (dbName oracleHome primaryMd5 standbyMd5 newStandbyMd5 : String)
    (hps : primaryMd5 ≠ standbyMd5) (hpn : primaryMd5 ≠ newStandbyMd5)
    (hpath : orapwDbsPath oracleHome dbName ≠ orapwTmpPath dbName) :
    (syncPasswordFileAfterDuplication dbName oracleHome
        primaryMd5 standbyMd5 newStandbyMd5).2 = some SyncError.integrityError ∧
    (syncPasswordFileAfterDuplication dbName oracleHome
        primaryMd5 standbyMd5 newStandbyMd5).1.filter
        (fun op => op.writesTo Host.standby (orapwDbsPath oracleHome dbName))
      = [FileOp.moveFile Host.standby (orapwTmpPath dbName)
          (orapwDbsPath oracleHome dbName)] ∧
    FileOp.restartDatabase Host.standby ∉
      (syncPasswordFileAfterDuplication dbName oracleHome
        primaryMd5 standbyMd5 newStandbyMd5).1 := by
  have hpath' := Ne.symm hpath
  have he : syncPasswordFileAfterDuplication dbName oracleHome
        primaryMd5 standbyMd5 newStandbyMd5
      = ([FileOp.captureOracleHome,
          FileOp.captureMd5 Host.primary (orapwDbsPath oracleHome dbName),
          FileOp.captureMd5 Host.standby (orapwDbsPath oracleHome dbName),
          FileOp.copyFile Host.primary (orapwDbsPath oracleHome dbName) (orapwTmpPath dbName),
          FileOp.scpCopy Host.primary (orapwTmpPath dbName) Host.control (orapwTmpPath dbName),
          FileOp.scpCopy Host.control (orapwTmpPath dbName) Host.standby (orapwTmpPath dbName),
          FileOp.moveFile Host.standby (orapwTmpPath dbName) (orapwDbsPath oracleHome dbName),
          FileOp.removeFile Host.primary (orapwTmpPath dbName),
          FileOp.captureMd5 Host.standby (orapwDbsPath oracleHome dbName)],
         some SyncError.integrityError) := by
    simp only [syncPasswordFileAfterDuplication]
    rw [if_neg hps, if_neg hpn]
    rfl
  rw [he]
  refine ⟨rfl, ?_, by simp⟩
  simp [FileOp.writesTo, List.filter, hpath']

/-- Witness for claim C10 at concrete inputs. -/
theorem sync_error_path_credential_already_replaced_witness :
    (syncPasswordFileAfterDuplication "ORA1" "/u01/oh" "aaa" "bbb" "ccc").2
      = some SyncError.integrityError :=
  (sync_error_path_credential_already_replaced "ORA1" "/u01/oh" "aaa" "bbb" "ccc"
    (by decide) (by decide) (by decide)).1

end OracleDataGuard
